import Mathlib

/-!
Verification of the aging-video generation/render pipeline.

The development embeds, as executable Lean definitions, the pipeline logic of
the backend: the prompt composer and age planner, the iterative image-chain
generator and the single-image regeneration operation
(`backend/app/openai_service.py`), the audio validator
(`backend/app/audio_processor.py`), and the render orchestrator
(`backend/app/remotion_service.py`).  External effects (the image API, the
filesystem, clocks, UUIDs and the renderer subprocess) are modelled as
explicit environment records threaded through the definitions, and the
side effects a run performs are collected in an explicit effect trace.
-/

namespace AgingVideo

/-- Decidable equality for `Except`, so that concrete pipeline outcomes can
be evaluated by `decide`. -/
instance {ε α} [DecidableEq ε] [DecidableEq α] : DecidableEq (Except ε α) :=
  fun x y =>
    match x, y with
    | .error a, .error b =>
      if h : a = b then isTrue (by rw [h])
      else isFalse (fun he => h (Except.error.inj he))
    | .error _, .ok _ => isFalse (fun h => Except.noConfusion h)
    | .ok _, .error _ => isFalse (fun h => Except.noConfusion h)
    | .ok a, .ok b =>
      if h : a = b then isTrue (by rw [h])
      else isFalse (fun he => h (Except.ok.inj he))

/-- Record produced for each successfully generated image
(`app/models.py`, class `GeneratedImage`). -/
structure GeneratedImage where
  url : String
  caption : String
  age : String
  year : String
  call_id : Option String := none
  base64_data : Option String := none
deriving Repr, DecidableEq

/-! ## String primitives

Python string operations are modelled structurally over the character
list of a `String`, so that every definition evaluates inside the kernel
(the corresponding core `String` functions recurse on byte positions and
do not reduce definitionally). -/

/-- Python `str.strip()` with no argument: remove leading and trailing
whitespace (modelled with the ASCII whitespace class). -/
def pyStrip (s : String) : String :=
  String.mk
    (((s.data.dropWhile Char.isWhitespace).reverse.dropWhile
      Char.isWhitespace).reverse)

/-- Python `str.startswith`. -/
def pyStartsWith (s pre : String) : Bool :=
  pre.data.isPrefixOf s.data

/-- Python `str.split(sep)` for a one-character separator: the list of
components, empty components preserved. -/
def splitOnChar (sep : Char) (s : List Char) : List (List Char) :=
  s.foldr
    (fun c acc =>
      match acc with
      | [] => if c = sep then [[], []] else [[c]]
      | a :: as => if c = sep then [] :: a :: as else (c :: a) :: as)
    [[]]

/-- Replace every (non-overlapping, leftmost-first) occurrence of `pat` in
the remaining input by nothing, as `str.replace(pat, "")` does.  The
recursion is indexed by fuel to stay structural; callers pass the input
length, which always suffices. -/
def eraseOccsAux (pat : List Char) : Nat → List Char → List Char
  | 0, s => s
  | _ + 1, [] => []
  | fuel + 1, c :: rest =>
    if pat ≠ [] && pat.isPrefixOf (c :: rest) then
      eraseOccsAux pat fuel ((c :: rest).drop pat.length)
    else c :: eraseOccsAux pat fuel rest

/-- Python `s.replace(pat, "")`. -/
def pyReplaceEmpty (s pat : String) : String :=
  String.mk (eraseOccsAux pat.data s.data.length s.data)

/-! ## Prompt composition and age planning (`app/openai_service.py`) -/

/-- Embedding of `OpenAIService._create_safe_prompt`. -/
def create_safe_prompt (base_prompt : String) (age : Int) (is_base : Bool)
    (age_difference : Int) : String :=
  let clean_prompt := pyStrip base_prompt
  if is_base then
    clean_prompt ++ ", person aged " ++ toString age ++
      " years old, natural lighting, high quality"
  else
    clean_prompt ++ ", same person but " ++ toString age_difference ++
      " years older (now aged " ++ toString age ++
      "), natural aging progression, natural lighting, high quality"

/-- Python truthiness of an optional integer argument: `None` and `0` are
falsy, every other value is truthy. -/
def truthyInt : Option Int → Bool
  | none => false
  | some n => n != 0

/-- Python truthiness of an optional list argument: `None` and `[]` are
falsy. -/
def truthyList : Option (List Int) → Bool
  | none => false
  | some l => !l.isEmpty

/-- The "default dynamic age calculation" branch of
`generate_images_and_captions` (the per-count table for 1..9 and the
evenly-spread branch for every other count).  The source computes the
spread branch as `int(20 + i * (70/(num_images-1)))` in IEEE doubles;
this model uses the exact integer value `20 + (i*70)/(n-1)`, which agrees
with the double computation for every count below 276 (in particular for
every count the specification discusses). -/
def defaultAges (num_images : Nat) : List Int :=
  if num_images = 1 then [25]
  else if num_images = 2 then [20, 60]
  else if num_images = 3 then [20, 40, 60]
  else if num_images = 4 then [20, 35, 50, 65]
  else if num_images = 5 then [20, 30, 40, 50, 60]
  else if num_images = 6 then [20, 30, 40, 50, 60, 70]
  else if num_images = 7 then [20, 25, 35, 45, 55, 65, 75]
  else if num_images = 8 then [20, 25, 35, 45, 55, 65, 75, 85]
  else if num_images = 9 then [20, 25, 30, 40, 50, 60, 70, 80, 90]
  else (List.range num_images).map
    (fun (i : Nat) => 20 + ((i : Int) * 70) / ((num_images : Int) - 1))

/-- Age-plan resolution of `generate_images_and_captions` (lines 38-68):
`custom_ages` wins when truthy (a non-empty list), otherwise truthy
`starting_age` and `age_gap` give an arithmetic sequence, otherwise the
default dynamic calculation applies. -/
def plan_ages (num_images : Nat) (custom_ages : Option (List Int))
    (starting_age age_gap : Option Int) : List Int :=
  if truthyList custom_ages then custom_ages.getD []
  else if truthyInt starting_age && truthyInt age_gap then
    (List.range num_images).map
      (fun (i : Nat) => starting_age.getD 0 + (i : Int) * age_gap.getD 0)
  else defaultAges num_images

/-- The age plan for a call that supplies neither custom ages nor explicit
start/gap arguments: the Python defaults `starting_age=20, age_gap=15`
apply. -/
def plan_ages_default (num_images : Nat) : List Int :=
  plan_ages num_images none (some 20) (some 15)

/-! ## Image-chain generation (`OpenAIService.generate_images_and_captions`)

Each iteration of the generation loop issues exactly one call to
`client.responses.create`; the outcome of the call issued at step `i`
(step `0` is the base call) is supplied by an environment oracle, as is the
path returned by `_save_base64_image` for the payload saved at step `i`
(the empty string models a failed save, exactly as in the source). -/

/-- A request sent to the image API: the composed prompt and the optional
`previous_response_id` continuation anchor. -/
structure ApiRequest where
  input : String
  previous_response_id : Option String
deriving Repr, DecidableEq

/-- Outcome of one `responses.create` call: either the call raised, or it
returned a response with id `id` whose `image_generation_call` outputs
carry the listed base64 payloads (possibly none). -/
inductive ApiOutcome where
  | error : ApiOutcome
  | ok (id : String) (images : List String) : ApiOutcome
deriving Repr, DecidableEq

/-- Environment of one `generate_images_and_captions` run: the API outcome
and the `_save_base64_image` result for each step index. -/
structure GenEnv where
  api : Nat → ApiRequest → ApiOutcome
  save : Nat → String → String

/-- The state threaded through the generation loop: the records collected
so far, the carried `previous_response_id` anchor, and the trace of API
requests issued so far. -/
structure ChainState where
  records : List GeneratedImage
  previous_response_id : String
  requests : List ApiRequest
deriving Repr, DecidableEq

/-- The continuation request the loop issues at step `i` (for `i ≥ 1`):
the progression prompt uses the delta from the previous planned age, and
the request references the carried anchor `prevId`. -/
def progressionRequest (prompt : String) (ages : List Int) (i : Nat)
    (prevId : String) : ApiRequest :=
  { input := create_safe_prompt prompt (ages.getD i 0) false
      (ages.getD i 0 - ages.getD (i - 1) 0),
    previous_response_id := some prevId }

/-- One iteration of the generation loop (source lines 134-195) at step
index `i ≥ 1`: issue the continuation call; on an API error, an empty
image list or a failed save, skip the age (records and anchor unchanged);
on success append the record and advance the anchor. -/
def chainStep (env : GenEnv) (prompt : String) (ages : List Int)
    (base_age : Int) (s : ChainState) (i : Nat) : ChainState :=
  let current_age := ages.getD i 0
  let req := progressionRequest prompt ages i s.previous_response_id
  let s' : ChainState := { s with requests := s.requests ++ [req] }
  match env.api i req with
  | .error => s'
  | .ok id imgs =>
    match imgs with
    | [] => s'
    | img :: _ =>
      let path := env.save i img
      if path = "" then s'
      else
        { s' with
          records := s'.records ++
            [{ url := path,
               caption := "Age " ++ toString current_age,
               age := toString current_age ++ " Years Old",
               year := toString (2025 + (current_age - base_age)),
               call_id := some id,
               base64_data := some img }],
          previous_response_id := id }

/-- The base request of `generate_images_and_captions`: the composed base
prompt with no continuation anchor. -/
def baseRequest (prompt : String) (base_age : Int) : ApiRequest :=
  { input := create_safe_prompt prompt base_age true 0,
    previous_response_id := none }

/-- Embedding of `OpenAIService.generate_images_and_captions`: resolve the
age plan, issue the base call (any failure there — API error, empty image
list, failed save — raises), then run the skip-on-failure loop over the
remaining ages.  Returns the result (the record list, or the raised
message) together with the trace of API requests issued. -/
def generate_images_and_captions (env : GenEnv) (prompt : String)
    (num_images : Nat) (custom_ages : Option (List Int))
    (starting_age age_gap : Option Int) :
    Except String (List GeneratedImage) × List ApiRequest :=
  let ages := plan_ages num_images custom_ages starting_age age_gap
  match ages with
  | [] => (.error "list index out of range", [])
  | base_age :: _ =>
    let base_req := baseRequest prompt base_age
    match env.api 0 base_req with
    | .error => (.error "GPT-5 base generation failed", [base_req])
    | .ok base_response_id base_imgs =>
      match base_imgs with
      | [] =>
        (.error "Failed to generate base image - no image data returned",
         [base_req])
      | img :: _ =>
        let base_path := env.save 0 img
        if base_path = "" then
          (.error "Failed to save base image to disk", [base_req])
        else
          let base_image : GeneratedImage :=
            { url := base_path,
              caption := "Age " ++ toString base_age,
              age := toString base_age ++ " Years Old",
              year := toString (2025 : Int),
              call_id := some base_response_id,
              base64_data := some img }
          let init : ChainState :=
            { records := [base_image],
              previous_response_id := base_response_id,
              requests := [base_req] }
          let final := (List.range' 1 (ages.length - 1)).foldl
            (chainStep env prompt ages base_age) init
          (.ok final.records, final.requests)

/-! ## Single-image regeneration (`OpenAIService.regenerate_single_image`) -/

/-- Python truthiness of an optional string: `None` and `""` are falsy. -/
def truthyStr : Option String → Bool
  | none => false
  | some s => s != ""

/-- Environment of one `regenerate_single_image` call: the API outcome for
its single request, the value `int(time.time())` observed when the output
filename is formed, and whether the disk write succeeds. -/
structure RegenEnv where
  api : ApiRequest → ApiOutcome
  timestamp : Nat
  saveOk : Bool

/-- The storage reference `_save_base64_image` returns for a regenerated
image saved at integer-second timestamp `t` for the given age. -/
def regen_url (age : Int) (t : Nat) : String :=
  "/generated/" ++ ("regen_age_" ++ toString age ++ "_" ++ toString t ++ ".png")

/-- Embedding of `OpenAIService.regenerate_single_image`: a single
base-or-continuation call (continuation only when the anchor is truthy and
`age > 20`); returns `none` on any generation or save failure. -/
def regenerate_single_image (env : RegenEnv) (original_prompt : String)
    (age : Int) (base_call_id : Option String) : Option GeneratedImage :=
  let safe_age_prompt :=
    create_safe_prompt original_prompt age base_call_id.isNone 0
  let req : ApiRequest :=
    if truthyStr base_call_id && decide (age > 20) then
      { input := safe_age_prompt, previous_response_id := base_call_id }
    else
      { input := safe_age_prompt, previous_response_id := none }
  match env.api req with
  | .error => none
  | .ok id imgs =>
    match imgs with
    | [] => none
    | img :: _ =>
      let local_image_path :=
        if env.saveOk then regen_url age env.timestamp else ""
      if local_image_path = "" then none
      else
        some
          { url := local_image_path,
            caption := "Age " ++ toString age,
            age := toString age ++ " Years Old",
            year := toString (2025 : Int),
            call_id := some id,
            base64_data := some img }

/-! ## Audio validation (`app/audio_processor.py`, `AudioProcessor`) -/

/-- Index of the last occurrence of `c` in `l` (Python `str.rfind`),
`none` when absent. -/
def rfindIdx (c : Char) (l : List Char) : Option Nat :=
  match l.reverse.findIdx? (fun x => x = c) with
  | none => none
  | some i => some (l.length - 1 - i)

/-- Final path component (posix `os.path.basename`). -/
def basename (p : String) : String :=
  String.mk ((splitOnChar '/' p.data).getLastD [])

/-- Embedding of `pathlib.PurePath.suffix`: the extension of the final
component, non-empty exactly when the last dot sits strictly inside the
name (not first, not last character). -/
def path_suffix (p : String) : String :=
  let name := (basename p).data
  match rfindIdx '.' name with
  | none => ""
  | some i =>
    if 0 < i && i < name.length - 1 then String.mk (name.drop i) else ""

/-- The supported audio formats of `AudioProcessor`. -/
def supported_formats : List String := [".mp3", ".wav", ".m4a", ".aac", ".ogg"]

/-- Maximum accepted file size of `AudioProcessor` (50MB). -/
def max_file_size : Nat := 50 * 1024 * 1024

/-- Result record of `validate_audio` (only the keys the code can set are
modelled; the float `size_mb` display value is elided). -/
structure ValidationResult where
  valid : Bool
  error : Option String := none
  format : Option String := none
  size_bytes : Option Nat := none
  needs_conversion : Option Bool := none
  duration_seconds : Option Rat := none
deriving Repr, DecidableEq

/-- Filesystem and probe facts a `validate_audio` call observes. -/
structure AudioEnv where
  pathExists : String → Bool
  getsize : String → Nat
  ffprobe_duration : Option Rat

/-- Extension resolution of `validate_audio` (lines 24-32): the lowered
`Path.suffix` when non-empty, else the dot-split fallback over the
basename, else the `No file extension found` failure.  `str.lower` is
modelled on ASCII, which covers every supported extension. -/
def resolve_ext (file_path : String) : Except String String :=
  let file_ext := String.mk ((path_suffix file_path).data.map Char.toLower)
  if file_ext ≠ "" then .ok file_ext
  else
    let filename := basename file_path
    if filename.data.contains '.' then
      .ok ("." ++ String.mk
        (((splitOnChar '.' filename.data).getLastD []).map Char.toLower))
    else .error "No file extension found"

/-- Embedding of `AudioProcessor.validate_audio`: existence, extension,
format, oversize and emptiness checks in source order, then the passing
result. -/
def validate_audio (env : AudioEnv) (file_path : String) : ValidationResult :=
  if !env.pathExists file_path then
    { valid := false, error := some "File not found" }
  else
    match resolve_ext file_path with
    | .error e => { valid := false, error := some e }
    | .ok file_ext =>
      if file_ext ∉ supported_formats then
        { valid := false,
          error := some ("Unsupported format: " ++ file_ext ++
            ". Supported formats: [\x27.mp3\x27, \x27.wav\x27, \x27.m4a\x27, \x27.aac\x27, \x27.ogg\x27]") }
      else
        let file_size := env.getsize file_path
        if file_size > max_file_size then
          { valid := false, error := some "File too large (max 50MB)" }
        else if file_size = 0 then
          { valid := false, error := some "File is empty" }
        else
          { valid := true,
            format := some file_ext,
            size_bytes := some file_size,
            needs_conversion := some (file_ext ≠ ".mp3"),
            duration_seconds := env.ffprobe_duration }

/-! ## Render orchestration (`app/remotion_service.py`, `RemotionService`) -/

/-- Embedding of `RemotionService._extract_filename_from_url`. -/
def extract_filename_from_url (url : String) : String :=
  if pyStartsWith url "http://" || pyStartsWith url "https://" then
    String.mk ((splitOnChar '/' url.data).getLastD [])
  else if pyStartsWith url "/images/" then
    pyReplaceEmpty url "/images/"
  else url

/-- One entry of the `images` list of the job descriptor
(`photo_data` in `_copy_images_to_public`). -/
structure PhotoData where
  year : String
  age : String
  image : String
deriving Repr, DecidableEq

/-- The serialized job descriptor (`remotion_props`). -/
structure RenderProps where
  title : String
  name : String
  audioFile : String
  images : List PhotoData
  durationPerImage : Rat
  transitionDuration : Rat
  textTransitionDuration : Rat
deriving Repr, DecidableEq

/-- Outcome of the renderer subprocess: completion with an exit code and
captured output streams, or expiry of the computed timeout. -/
inductive SubprocOutcome where
  | completed (returncode : Int) (stdout stderr : String) : SubprocOutcome
  | timedOut : SubprocOutcome
deriving Repr, DecidableEq

/-- Externally visible side effects of one `render_video` run, in
program order. -/
inductive RenderEffect where
  | copyImage (filename : String) : RenderEffect
  | copyAudio (filename : String) : RenderEffect
  | writeProps (path : String) (props : RenderProps) : RenderEffect
  | runSubprocess (timeout : Nat) : RenderEffect
  | removeProps (path : String) : RenderEffect
deriving Repr, DecidableEq

/-- Environment of one `render_video` run: which source images exist,
whether the audio path exists, the job tokens (`video_id` from the clock,
the two uuid hex fragments), and the subprocess outcome. -/
structure RenderEnv where
  sourceExists : String → Bool
  audioExists : String → Bool
  video_id : String
  props_uuid : String
  output_uuid : String
  subproc : SubprocOutcome

/-- One iteration of the `_copy_images_to_public` loop: skip records with
an empty url, copy the image when its source file exists (appending its
descriptor and the copy effect), skip it otherwise. -/
def copyStep (env : RenderEnv) (acc : List PhotoData × List RenderEffect)
    (img : GeneratedImage) : List PhotoData × List RenderEffect :=
  if img.url = "" then acc
  else
    let filename := extract_filename_from_url img.url
    if env.sourceExists filename then
      (acc.1 ++
        [{ year := if img.year = "" then "Age " ++ img.age else img.year,
           age := img.age,
           image := "images/" ++ filename }],
       acc.2 ++ [RenderEffect.copyImage filename])
    else acc

/-- Embedding of `RemotionService._copy_images_to_public`: drop records
with an empty url or a missing source file, copy the survivors and build
their descriptors; returns the descriptors and the copy effects. -/
def copy_images_to_public (env : RenderEnv) (images : List GeneratedImage) :
    List PhotoData × List RenderEffect :=
  images.foldl (copyStep env) ([], [])

/-- Embedding of posix `os.path.splitext(p)[1]`: the extension from the
last dot of the final component, unless that component consists only of
leading dots up to it. -/
def splitext_ext (p : String) : String :=
  let cs := p.data
  let sepIndex : Int := match rfindIdx '/' cs with
    | none => -1
    | some i => i
  let dotIndex : Int := match rfindIdx '.' cs with
    | none => -1
    | some i => i
  if sepIndex < dotIndex then
    let filenameIndex := (sepIndex + 1).toNat
    if ((cs.drop filenameIndex).take (dotIndex.toNat - filenameIndex)).any
        (fun c => c ≠ '.') then
      String.mk (cs.drop dotIndex.toNat)
    else ""
  else ""

/-- The adaptive subprocess timeout of `render_video` (lines 181-187):
`min(base_timeout + count * per_image_timeout, max_timeout)` with a 120s
base, 30s per staged image and a 300s cap. -/
def estimated_timeout (photo_count : Nat) : Nat :=
  min (120 + photo_count * 30) 300

/-- Embedding of `RemotionService.render_video`: stage the images, check
the audio precondition, copy the audio, write the job-descriptor (props)
file, run the renderer subprocess under the adaptive timeout, and
interpret its outcome.  Returns the result (output path or raised
message) together with the effect trace.  Path prefixes from
`project_path`/`os.path.abspath` are elided. -/
def render_video (env : RenderEnv) (images : List GeneratedImage)
    (audio_file title name : String)
    (duration_per_image transition_duration text_transition_duration : Rat) :
    Except String String × List RenderEffect :=
  let staged := copy_images_to_public env images
  let photos_data := staged.1
  let fx0 := staged.2
  if photos_data.length < 1 then
    (.error ("No valid images found: " ++ toString photos_data.length ++
      ". Need at least 1."), fx0)
  else if audio_file = "" || !env.audioExists audio_file then
    (.error ("Audio file is required for video generation. " ++
      "Please provide a valid audio file."), fx0)
  else
    let audio_ext := splitext_ext audio_file
    let audio_filename := "custom_audio_" ++ env.video_id ++ audio_ext
    let fx1 := fx0 ++ [RenderEffect.copyAudio audio_filename]
    let remotion_props : RenderProps :=
      { title := title,
        name := name,
        audioFile := audio_filename,
        images := photos_data,
        durationPerImage := duration_per_image,
        transitionDuration := transition_duration,
        textTransitionDuration := text_transition_duration }
    let props_filename := "video_props_" ++ env.props_uuid ++ ".json"
    let props_file_path := "generated/" ++ props_filename
    let fx2 := fx1 ++ [RenderEffect.writeProps props_file_path remotion_props]
    let output_filename := "aging_video_" ++ env.output_uuid ++ ".mp4"
    let output_path := "generated/" ++ output_filename
    let timeout := estimated_timeout photos_data.length
    let fx3 := fx2 ++ [RenderEffect.runSubprocess timeout]
    match env.subproc with
    | .completed returncode _ stderr =>
      if returncode = 0 then
        (.ok output_path, fx3 ++ [RenderEffect.removeProps props_file_path])
      else
        (.error ("Remotion render failed: " ++ stderr),
         fx3 ++ [RenderEffect.removeProps props_file_path])
    | .timedOut =>
      (.error ("Video rendering timed out after " ++ toString timeout ++
        " seconds. This may be due to complex images or system performance. " ++
        "Try using fewer images or simpler content."), fx3)

/-- The path of the transient job-descriptor (props) file one
`render_video` run writes. -/
def props_file_path (env : RenderEnv) : String :=
  "generated/" ++ ("video_props_" ++ env.props_uuid ++ ".json")

/-! ## Predicates used by the chain theorems -/

/-- The call issued at a non-base step fails in one of the three absorbed
ways: the API call raises, the response carries no image payload, or the
disk save fails. -/
def stepFails (env : GenEnv) (i : Nat) (req : ApiRequest) : Prop :=
  env.api i req = .error ∨
  (∃ id, env.api i req = .ok id []) ∨
  (∃ id img rest, env.api i req = .ok id (img :: rest) ∧ env.save i img = "")

/-- The record `r` is one a non-base step of the plan `ages` can produce:
its age label comes from a planned age at a non-base position and its year
label is `2025` plus that age's distance from the base age. -/
def yearProp (ages : List Int) (base_age : Int) (r : GeneratedImage) : Prop :=
  ∃ i, 1 ≤ i ∧ i < ages.length ∧
    r.age = toString (ages.getD i 0) ++ " Years Old" ∧
    r.year = toString (2025 + (ages.getD i 0 - base_age))

/-! ## Decimal digits of a natural number

`regenerate_single_image` embeds `int(time.time())` in its output
filename through `str`; relating distinct timestamps to distinct
filenames needs injectivity of the decimal rendering, developed here
against core `Nat.repr`. -/

/-- The decimal digit characters of `n`, most significant first: the
character list underlying `Nat.repr`. -/
def natChars (n : Nat) : List Char :=
  if n < 10 then [Nat.digitChar n]
  else natChars (n / 10) ++ [Nat.digitChar (n % 10)]
termination_by n
decreasing_by exact Nat.div_lt_self (by omega) (by omega)

/-! ## Concrete environments for witnesses and counterexamples -/

/-- Generation environment for the 3-step scenario of claim C1: the base
call and the third call succeed, the second call raises. -/
def c1Env : GenEnv :=
  { api := fun i _ =>
      match i with
      | 0 => .ok "resp-1" ["img-1"]
      | 1 => .error
      | _ => .ok "resp-3" ["img-3"],
    save := fun i _ => "/generated/step_" ++ toString i ++ ".png" }

/-- A concrete mid-chain state, used to witness the skip invariant. -/
def w1State : ChainState :=
  { records :=
      [{ url := "/generated/step_0.png", caption := "Age 20",
         age := "20 Years Old", year := "2025",
         call_id := some "resp-1", base64_data := some "img-1" }],
    previous_response_id := "resp-1",
    requests := [baseRequest "a person" 20] }

/-- Generation environment whose base call returns a response with no
image payload. -/
def c2aEnv : GenEnv :=
  { api := fun _ _ => .ok "base-id" [],
    save := fun i _ => "/generated/step_" ++ toString i ++ ".png" }

/-- Generation environment whose base call succeeds and whose every later
call raises. -/
def c2bEnv : GenEnv :=
  { api := fun i _ =>
      match i with
      | 0 => .ok "base-id" ["img-base"]
      | _ => .error,
    save := fun i _ => "/generated/step_" ++ toString i ++ ".png" }

/-- Generation environment for the year-label witness: base and second
step succeed, third step raises. -/
def c10Env : GenEnv :=
  { api := fun i _ =>
      match i with
      | 0 => .ok "resp-a" ["img-a"]
      | 1 => .ok "resp-b" ["img-b"]
      | _ => .error,
    save := fun i _ => "/generated/run_" ++ toString i ++ ".png" }

/-- Regeneration environment: call succeeds with response id `rid-1`,
save succeeds, clock reads 1757000000. -/
def c4EnvA : RegenEnv :=
  { api := fun _ => .ok "rid-1" ["payload-1"],
    timestamp := 1757000000,
    saveOk := true }

/-- Regeneration environment for a second call landing in the same
integer second as `c4EnvA`. -/
def c4EnvB : RegenEnv :=
  { api := fun _ => .ok "rid-2" ["payload-2"],
    timestamp := 1757000000,
    saveOk := true }

/-- Regeneration environment one second later than `c4EnvA`. -/
def w4Env : RegenEnv :=
  { api := fun _ => .ok "rid-3" ["payload-3"],
    timestamp := 1757000001,
    saveOk := true }

/-- The record the call under `c4EnvA` produces. -/
def w4RecA : GeneratedImage :=
  { url := "/generated/regen_age_30_1757000000.png", caption := "Age 30",
    age := "30 Years Old", year := "2025",
    call_id := some "rid-1", base64_data := some "payload-1" }

/-- The record the call under `w4Env` produces. -/
def w4RecB : GeneratedImage :=
  { url := "/generated/regen_age_30_1757000001.png", caption := "Age 30",
    age := "30 Years Old", year := "2025",
    call_id := some "rid-3", base64_data := some "payload-3" }

/-- Audio filesystem in which every path names an existing zero-byte
file. -/
def audioFs0 : AudioEnv :=
  { pathExists := fun _ => true,
    getsize := fun _ => 0,
    ffprobe_duration := none }

/-- A staged-image record whose source file exists in the sample render
environments. -/
def sampleImages : List GeneratedImage :=
  [{ url := "/generated/base_age_20_1.png", caption := "Age 20",
     age := "20 Years Old", year := "2025" }]

/-- A concrete job descriptor, used to instantiate the no-props-write
conclusion of claim C6. -/
def sampleProps : RenderProps :=
  { title := "T", name := "N", audioFile := "custom_audio_1757000000.mp3",
    images := [], durationPerImage := 2, transitionDuration := 1,
    textTransitionDuration := 1 }

/-- Render environment whose subprocess exits cleanly. -/
def w5Env : RenderEnv :=
  { sourceExists := fun _ => true,
    audioExists := fun _ => true,
    video_id := "1757000000",
    props_uuid := "aaaabbbb",
    output_uuid := "ccccdddd",
    subproc := .completed 0 "" "" }

/-- Render environment whose audio path does not exist. -/
def w6Env : RenderEnv :=
  { sourceExists := fun _ => true,
    audioExists := fun _ => false,
    video_id := "1757000000",
    props_uuid := "aaaabbbb",
    output_uuid := "ccccdddd",
    subproc := .completed 0 "" "" }

/-- Render environment whose subprocess hits the computed timeout. -/
def w7Env : RenderEnv :=
  { sourceExists := fun _ => true,
    audioExists := fun _ => true,
    video_id := "1757000000",
    props_uuid := "aaaabbbb",
    output_uuid := "ccccdddd",
    subproc := .timedOut }

/-! ## Helper lemmas about the staging loop's effect trace -/

/-- Every effect `copyStep` adds to the trace is an image copy. -/
theorem copyStep_effect_mem (env : RenderEnv)
    (acc : List PhotoData × List RenderEffect) (img : GeneratedImage) :
    ∀ e ∈ (copyStep env acc img).2,
      e ∈ acc.2 ∨ ∃ f, e = RenderEffect.copyImage f := by
  intro e he
  simp only [copyStep] at he
  split at he
  · exact Or.inl he
  · split at he
    · rcases List.mem_append.mp he with h | h
      · exact Or.inl h
      · exact Or.inr ⟨_, (List.mem_singleton.mp h)⟩
    · exact Or.inl he

/-- Every effect the staging fold adds to the accumulator is an image
copy. -/
theorem copy_foldl_effect_mem (env : RenderEnv) :
    ∀ (images : List GeneratedImage) (acc : List PhotoData × List RenderEffect)
      (e : RenderEffect), e ∈ (images.foldl (copyStep env) acc).2 →
      e ∈ acc.2 ∨ ∃ f, e = RenderEffect.copyImage f := by
  intro images
  induction images with
  | nil => exact fun acc e he => Or.inl he
  | cons img rest ih =>
    intro acc e he
    rcases ih (copyStep env acc img) e he with h | h
    · exact copyStep_effect_mem env acc img e h
    · exact Or.inr h

/-- Every effect of `_copy_images_to_public` is an image copy: staging
performs no audio copy, no props write, no subprocess run and no props
removal. -/
theorem copy_images_effect_mem (env : RenderEnv) (images : List GeneratedImage) :
    ∀ e ∈ (copy_images_to_public env images).2, ∃ f, e = RenderEffect.copyImage f := by
  intro e he
  rcases copy_foldl_effect_mem env images ([], []) e he with h | h
  · simp at h
  · exact h

/-! ## Helper lemmas about the generation loop -/

/-- A failed non-base step leaves the collected records and the carried
anchor untouched; only the issued request (which referenced the carried
anchor) is logged. -/
theorem chainStep_skip (env : GenEnv) (prompt : String) (ages : List Int)
    (base_age : Int) (s : ChainState) (i : Nat)
    (h : stepFails env i (progressionRequest prompt ages i s.previous_response_id)) :
    chainStep env prompt ages base_age s i =
      { s with requests := s.requests ++
          [progressionRequest prompt ages i s.previous_response_id] } := by
  rcases h with h | ⟨id, h⟩ | ⟨id, img, rest, h, hs⟩
  · simp only [chainStep, h]
  · simp only [chainStep, h]
  · simp only [chainStep, h, hs, if_pos]

/-- One loop iteration appends at most one record. -/
theorem chainStep_records_le (env : GenEnv) (prompt : String) (ages : List Int)
    (base_age : Int) (s : ChainState) (i : Nat) :
    (chainStep env prompt ages base_age s i).records.length ≤
      s.records.length + 1 := by
  simp only [chainStep]
  cases env.api i (progressionRequest prompt ages i s.previous_response_id) with
  | error => simp
  | ok id imgs =>
    cases imgs with
    | nil => simp
    | cons img tail =>
      by_cases hp : env.save i img = "" <;> simp [hp]

/-- One loop iteration never drops a record. -/
theorem chainStep_records_ge (env : GenEnv) (prompt : String) (ages : List Int)
    (base_age : Int) (s : ChainState) (i : Nat) :
    s.records.length ≤ (chainStep env prompt ages base_age s i).records.length := by
  simp only [chainStep]
  cases env.api i (progressionRequest prompt ages i s.previous_response_id) with
  | error => simp
  | ok id imgs =>
    cases imgs with
    | nil => simp
    | cons img tail =>
      by_cases hp : env.save i img = "" <;> simp [hp]

/-- Over any index list, the loop appends at most one record per index. -/
theorem foldl_chain_records_le (env : GenEnv) (prompt : String)
    (ages : List Int) (base_age : Int) :
    ∀ (idxs : List Nat) (s : ChainState),
      ((idxs.foldl (chainStep env prompt ages base_age) s).records).length ≤
        s.records.length + idxs.length := by
  intro idxs
  induction idxs with
  | nil => simp
  | cons i rest ih =>
    intro s
    calc ((rest.foldl (chainStep env prompt ages base_age)
            (chainStep env prompt ages base_age s i)).records).length ≤
          (chainStep env prompt ages base_age s i).records.length + rest.length :=
            ih _
      _ ≤ s.records.length + 1 + rest.length :=
            Nat.add_le_add_right (chainStep_records_le env prompt ages base_age s i) _
      _ = s.records.length + (i :: rest).length := by simp; omega

/-- Over any index list, the loop never drops a record. -/
theorem foldl_chain_records_ge (env : GenEnv) (prompt : String)
    (ages : List Int) (base_age : Int) :
    ∀ (idxs : List Nat) (s : ChainState),
      s.records.length ≤
        ((idxs.foldl (chainStep env prompt ages base_age) s).records).length := by
  intro idxs
  induction idxs with
  | nil => simp
  | cons i rest ih =>
    intro s
    exact le_trans (chainStep_records_ge env prompt ages base_age s i) (ih _)

/-- One loop iteration preserves the shape `base :: progression records`,
and every appended record's age and year labels come from its planned
age. -/
theorem chainStep_year (env : GenEnv) (prompt : String) (ages : List Int)
    (base_age : Int) (s : ChainState) (i : Nat)
    (hi : 1 ≤ i ∧ i < ages.length)
    (base : GeneratedImage) (t : List GeneratedImage)
    (hs : s.records = base :: t)
    (ht : ∀ r ∈ t, yearProp ages base_age r) :
    ∃ t2, (chainStep env prompt ages base_age s i).records = base :: t2 ∧
      ∀ r ∈ t2, yearProp ages base_age r := by
  simp only [chainStep]
  cases env.api i (progressionRequest prompt ages i s.previous_response_id) with
  | error => exact ⟨t, hs, ht⟩
  | ok id imgs =>
    cases imgs with
    | nil => exact ⟨t, hs, ht⟩
    | cons img tail =>
      dsimp only
      by_cases hp : env.save i img = ""
      · rw [if_pos hp]
        exact ⟨t, hs, ht⟩
      · rw [if_neg hp]
        refine ⟨t ++
          [{ url := env.save i img,
             caption := "Age " ++ toString (ages.getD i 0),
             age := toString (ages.getD i 0) ++ " Years Old",
             year := toString (2025 + (ages.getD i 0 - base_age)),
             call_id := some id, base64_data := some img }],
          by simp only [hs]; simp, ?_⟩
        intro r hr
        rcases List.mem_append.mp hr with h | h
        · exact ht r h
        · rw [List.mem_singleton.mp h]
          exact ⟨i, hi.1, hi.2, rfl, rfl⟩

/-- The whole loop preserves the shape `base :: progression records` and
the age/year relationship of every progression record. -/
theorem foldl_chain_year (env : GenEnv) (prompt : String) (ages : List Int)
    (base_age : Int) :
    ∀ (idxs : List Nat) (s : ChainState) (base : GeneratedImage)
      (t : List GeneratedImage),
      (∀ i ∈ idxs, 1 ≤ i ∧ i < ages.length) →
      s.records = base :: t →
      (∀ r ∈ t, yearProp ages base_age r) →
      ∃ t2, ((idxs.foldl (chainStep env prompt ages base_age) s).records =
        base :: t2 ∧ ∀ r ∈ t2, yearProp ages base_age r) := by
  intro idxs
  induction idxs with
  | nil => exact fun s base t _ hs ht => ⟨t, hs, ht⟩
  | cons i rest ih =>
    intro s base t hmem hs ht
    obtain ⟨t1, h1, h2⟩ := chainStep_year env prompt ages base_age s i
      (hmem i (by simp)) base t hs ht
    exact ih (chainStep env prompt ages base_age s i) base t1
      (fun j hj => hmem j (by simp [hj])) h1 h2

/-- The default dynamic age plan always has the requested length. -/
theorem defaultAges_length (n : Nat) : (defaultAges n).length = n := by
  unfold defaultAges
  repeat' split
  all_goals simp_all [List.length_map, List.length_range]

/-- Without custom ages, the resolved plan always has the requested
length. -/
theorem plan_ages_none_length (n : Nat) (sa ga : Option Int) :
    (plan_ages n none sa ga).length = n := by
  unfold plan_ages
  simp only [truthyList, Bool.false_eq_true, if_false]
  split
  · rw [List.length_map, List.length_range]
  · exact defaultAges_length n

/-! ## Claim C3: the fixed lookup table and the resolved age plan -/

/-- Claim C3 as stated is false on the code: when neither explicit ages nor
start/gap values are supplied, the Python defaults `starting_age=20,
age_gap=15` are truthy, so the resolved plan is the arithmetic sequence
`20 + 15*i`, not the fixed lookup table — for count 3 the plan is
`[20, 35, 50]`, not `[20, 40, 60]`, and for count 5 it is
`[20, 35, 50, 65, 80]`, not `[20, 30, 40, 50, 60]`. -/
theorem claim_C3_counterexample :
    plan_ages_default 3 = [20, 35, 50] ∧
    plan_ages_default 3 ≠ [20, 40, 60] ∧
    plan_ages_default 5 = [20, 35, 50, 65, 80] ∧
    plan_ages_default 5 ≠ [20, 30, 40, 50, 60] := by
  decide

/-- Claim C3, amended: the fixed lookup table governs the resolved plan
only when the start/gap arguments are falsy (`None` or `0`) rather than
left at their truthy defaults; in that case, for every count in 1..9 the
plan equals the fixed lookup table, e.g. count 3 gives `[20, 40, 60]` and
count 5 gives `[20, 30, 40, 50, 60]`. -/
theorem claim_C3_amended :
    plan_ages 1 none none none = [25] ∧
    plan_ages 2 none none none = [20, 60] ∧
    plan_ages 3 none none none = [20, 40, 60] ∧
    plan_ages 4 none none none = [20, 35, 50, 65] ∧
    plan_ages 5 none none none = [20, 30, 40, 50, 60] ∧
    plan_ages 6 none none none = [20, 30, 40, 50, 60, 70] ∧
    plan_ages 7 none none none = [20, 25, 35, 45, 55, 65, 75] ∧
    plan_ages 8 none none none = [20, 25, 35, 45, 55, 65, 75, 85] ∧
    plan_ages 9 none none none = [20, 25, 30, 40, 50, 60, 70, 80, 90] := by
  decide

/-! ## Claim C8: the resolved plan for count 12 -/

/-- Claim C8 as stated is false on the code: with neither explicit ages
nor start/gap supplied, the truthy defaults `20/15` produce
`[20, 35, ..., 185]` for count 12 — length 12 and starting at 20, but
ending at 185, not 90, and not following the evenly spaced formula. -/
theorem claim_C8_counterexample :
    plan_ages_default 12 =
      [20, 35, 50, 65, 80, 95, 110, 125, 140, 155, 170, 185] ∧
    (plan_ages_default 12).getLastD 0 ≠ 90 := by
  decide

/-- Claim C8, amended: when the start/gap arguments are falsy (`None` or
`0`) rather than left at their truthy defaults, the resolved plan for
count 12 follows the evenly spaced integer formula `20 + (i*70)/(12-1)`
(floor division; the source computes it in IEEE doubles, which agree with
the exact value at this count): it has length 12, is strictly increasing,
starts at 20 and ends at 90. -/
theorem claim_C8_amended :
    plan_ages 12 none none none =
      (List.range 12).map (fun i => 20 + ((i : Int) * 70) / 11) ∧
    plan_ages 12 none none none =
      [20, 26, 32, 39, 45, 51, 58, 64, 70, 77, 83, 90] ∧
    (plan_ages 12 none none none).length = 12 ∧
    (plan_ages 12 none none none).Pairwise (fun a b => a < b) ∧
    (plan_ages 12 none none none).headD 0 = 20 ∧
    (plan_ages 12 none none none).getLastD 0 = 90 := by
  decide

/-! ## Claim C5: the adaptive subprocess timeout -/

/-- Claim C5: for every render job, whenever the renderer subprocess is
launched its timeout equals `min(120 + 30*n, 300)` seconds, `n` being the
number of staged images; in particular 150 seconds for 1 staged image and
300 seconds (capped) for 10. -/
theorem claim_C5 :
    (∀ (env : RenderEnv) (images : List GeneratedImage)
        (audio_file title name : String)
        (dpi td ttd : Rat) (t : Nat),
      RenderEffect.runSubprocess t ∈
        (render_video env images audio_file title name dpi td ttd).2 →
      t = min (120 + 30 * (copy_images_to_public env images).1.length) 300) ∧
    estimated_timeout 1 = 150 ∧ estimated_timeout 10 = 300 := by
  refine ⟨?_, rfl, rfl⟩
  intro env images audio_file title name dpi td ttd t h
  simp only [render_video] at h
  split at h
  · rcases copy_images_effect_mem env images _ h with ⟨f, hf⟩
    cases hf
  · split at h
    · rcases copy_images_effect_mem env images _ h with ⟨f, hf⟩
      cases hf
    · split at h
      · split at h <;>
        · simp only [List.mem_append, List.mem_singleton] at h
          rcases h with ((((h | h) | h) | h) | h)
          · rcases copy_images_effect_mem env images _ h with ⟨f, hf⟩; cases hf
          · cases h
          · cases h
          · injection h with ht
            rw [ht]; simp [estimated_timeout]; omega
          · cases h
      · simp only [List.mem_append, List.mem_singleton] at h
        rcases h with (((h | h) | h) | h)
        · rcases copy_images_effect_mem env images _ h with ⟨f, hf⟩; cases hf
        · cases h
        · cases h
        · injection h with ht
          rw [ht]; simp [estimated_timeout]; omega

/-- Witness for claim C5: in a concrete 1-image run that reaches the
subprocess, the launch carries timeout 150 = min(120 + 30*1, 300). -/
theorem claim_C5_witness :
    150 = min (120 + 30 * (copy_images_to_public w5Env sampleImages).1.length) 300 :=
  claim_C5.1 w5Env sampleImages "uploads/a.mp3" "T" "N" 2 1 1 150 (by decide)

/-! ## Claim C6: missing audio fails before props write and subprocess -/

/-- Claim C6: whenever the audio reference is empty or does not resolve to
an existing file, `render_video` fails, launches no renderer subprocess
and writes no job-descriptor (props) file. -/
theorem claim_C6 :
    ∀ (env : RenderEnv) (images : List GeneratedImage)
      (audio_file title name : String) (dpi td ttd : Rat),
      (audio_file = "" ∨ env.audioExists audio_file = false) →
      (∃ msg, (render_video env images audio_file title name dpi td ttd).1 =
        .error msg) ∧
      (∀ t, RenderEffect.runSubprocess t ∉
        (render_video env images audio_file title name dpi td ttd).2) ∧
      (∀ p props, RenderEffect.writeProps p props ∉
        (render_video env images audio_file title name dpi td ttd).2) := by
  intro env images audio_file title name dpi td ttd haud
  have hc : (decide (audio_file = "") || !env.audioExists audio_file) = true := by
    rcases haud with h | h <;> simp [h]
  simp only [render_video]
  split <;>
  · refine ⟨⟨_, rfl⟩, ?_, ?_⟩
    · intro t ht
      rcases copy_images_effect_mem env images _ ht with ⟨f, hf⟩; cases hf
    · intro p props hp
      rcases copy_images_effect_mem env images _ hp with ⟨f, hf⟩; cases hf

/-- Witness for claim C6: with a concrete environment whose audio path
does not exist, the run fails, runs no subprocess and writes no props
file. -/
theorem claim_C6_witness :
    (∃ msg, (render_video w6Env sampleImages "uploads/a.mp3" "T" "N" 2 1 1).1 =
      .error msg) ∧
    RenderEffect.runSubprocess 150 ∉
      (render_video w6Env sampleImages "uploads/a.mp3" "T" "N" 2 1 1).2 ∧
    RenderEffect.writeProps (props_file_path w6Env) sampleProps ∉
      (render_video w6Env sampleImages "uploads/a.mp3" "T" "N" 2 1 1).2 :=
  ⟨(claim_C6 w6Env sampleImages "uploads/a.mp3" "T" "N" 2 1 1 (Or.inr rfl)).1,
   (claim_C6 w6Env sampleImages "uploads/a.mp3" "T" "N" 2 1 1 (Or.inr rfl)).2.1 150,
   (claim_C6 w6Env sampleImages "uploads/a.mp3" "T" "N" 2 1 1 (Or.inr rfl)).2.2
     (props_file_path w6Env) sampleProps⟩

/-! ## Claim C7: props-file cleanup per subprocess outcome -/

/-- Claim C7: in a run that reaches the renderer subprocess, a clean exit
returns the output path and removes the props file, a non-zero exit fails
with the captured stderr and removes the props file, and a timeout fails
with the message naming the computed budget and removes no props file. -/
theorem claim_C7 :
    ∀ (env : RenderEnv) (images : List GeneratedImage)
      (audio_file title name : String) (dpi td ttd : Rat),
      1 ≤ (copy_images_to_public env images).1.length →
      audio_file ≠ "" →
      env.audioExists audio_file = true →
      ((∀ out err, env.subproc = .completed 0 out err →
        (render_video env images audio_file title name dpi td ttd).1 =
          .ok ("generated/" ++ ("aging_video_" ++ env.output_uuid ++ ".mp4")) ∧
        RenderEffect.removeProps (props_file_path env) ∈
          (render_video env images audio_file title name dpi td ttd).2) ∧
      (∀ rc out err, env.subproc = .completed rc out err → rc ≠ 0 →
        (render_video env images audio_file title name dpi td ttd).1 =
          .error ("Remotion render failed: " ++ err) ∧
        RenderEffect.removeProps (props_file_path env) ∈
          (render_video env images audio_file title name dpi td ttd).2) ∧
      (env.subproc = .timedOut →
        (render_video env images audio_file title name dpi td ttd).1 =
          .error ("Video rendering timed out after " ++
            toString (estimated_timeout (copy_images_to_public env images).1.length) ++
            " seconds. This may be due to complex images or system performance. " ++
            "Try using fewer images or simpler content.") ∧
        ∀ p, RenderEffect.removeProps p ∉
          (render_video env images audio_file title name dpi td ttd).2)) := by
  intro env images audio_file title name dpi td ttd hlen haud hex
  have hc : (decide (audio_file = "") || !env.audioExists audio_file) = false := by
    simp [haud, hex]
  have hnotlt : ¬ (copy_images_to_public env images).1.length < 1 := by omega
  refine ⟨?_, ?_, ?_⟩
  · intro out err hsub
    simp only [render_video, if_neg hnotlt, hc, Bool.false_eq_true, if_false, hsub]
    simp [props_file_path]
  · intro rc out err hsub hrc
    simp only [render_video, if_neg hnotlt, hc, Bool.false_eq_true, if_false, hsub]
    rw [if_neg hrc]
    exact ⟨rfl, by simp [props_file_path]⟩
  · intro hsub
    simp only [render_video, if_neg hnotlt, hc, Bool.false_eq_true, if_false, hsub]
    refine ⟨trivial, ?_⟩
    intro p hp
    simp only [List.mem_append, List.mem_singleton] at hp
    rcases hp with (((h | h) | h) | h)
    · rcases copy_images_effect_mem env images _ h with ⟨f, hf⟩; cases hf
    · cases h
    · cases h
    · cases h

/-- Witness for claim C7: in a concrete 1-image run whose subprocess times
out, the failure names the 150-second budget and the props file is not
removed. -/
theorem claim_C7_witness :
    (render_video w7Env sampleImages "uploads/a.mp3" "T" "N" 2 1 1).1 =
      .error ("Video rendering timed out after " ++
        toString (estimated_timeout (copy_images_to_public w7Env sampleImages).1.length) ++
        " seconds. This may be due to complex images or system performance. " ++
        "Try using fewer images or simpler content.") ∧
    RenderEffect.removeProps (props_file_path w7Env) ∉
      (render_video w7Env sampleImages "uploads/a.mp3" "T" "N" 2 1 1).2 := by
  have h := (claim_C7 w7Env sampleImages "uploads/a.mp3" "T" "N" 2 1 1
    (by decide) (by decide) rfl).2.2 rfl
  exact ⟨h.1, h.2 (props_file_path w7Env)⟩

/-! ## Claim C9: zero-byte audio never validates -/

/-- Claim C9 as stated is false on the code in its error detail: the
extension checks run before the emptiness check, so an existing zero-byte
file without an extension is rejected with `No file extension found`, not
`File is empty` — though it is still rejected (`valid = false`). -/
theorem claim_C9_counterexample :
    audioFs0.pathExists "uploads/track" = true ∧
    audioFs0.getsize "uploads/track" = 0 ∧
    (validate_audio audioFs0 "uploads/track").valid = false ∧
    (validate_audio audioFs0 "uploads/track").error =
      some "No file extension found" ∧
    (validate_audio audioFs0 "uploads/track").error ≠ some "File is empty" := by
  decide

/-- Claim C9, amended: every existing zero-byte file fails validation
(`valid = false`), and the error is `File is empty` whenever the file's
resolved extension is a supported format (otherwise the earlier
extension/format check's error is reported). -/
theorem claim_C9_amended :
    ∀ (env : AudioEnv) (p : String),
      env.pathExists p = true → env.getsize p = 0 →
      (validate_audio env p).valid = false ∧
      (∀ ext, resolve_ext p = .ok ext → ext ∈ supported_formats →
        (validate_audio env p).error = some "File is empty") := by
  intro env p hex hsz
  unfold validate_audio
  rw [hex]
  simp only [Bool.not_true, Bool.false_eq_true, if_false]
  cases hre : resolve_ext p with
  | error e =>
    exact ⟨rfl, fun ext hok _ => Except.noConfusion hok⟩
  | ok ext' =>
    by_cases hsup' : ext' ∈ supported_formats
    · dsimp only
      rw [if_neg (fun hn => hn hsup'), hsz]
      simp [max_file_size]
    · dsimp only
      rw [if_pos hsup']
      refine ⟨rfl, ?_⟩
      intro ext hok hsup
      cases Except.ok.inj hok
      exact absurd hsup hsup'

/-- Witness for claim C9: a concrete existing zero-byte `.mp3` upload is
rejected with `File is empty`. -/
theorem claim_C9_witness :
    (validate_audio audioFs0 "uploads/song.mp3").valid = false ∧
    (validate_audio audioFs0 "uploads/song.mp3").error = some "File is empty" :=
  ⟨(claim_C9_amended audioFs0 "uploads/song.mp3" rfl rfl).1,
   (claim_C9_amended audioFs0 "uploads/song.mp3" rfl rfl).2 ".mp3"
     (by decide) (by decide)⟩

/-! ## Claim C1: the chain-anchor skip invariant -/

/-- Claim C1: a failed or imageless continuation step is skipped with the
carried anchor unchanged (only the issued request, which referenced that
anchor, is logged); concretely, when step 2 of 3 fails and steps 1 and 3
succeed, the run returns exactly the step-1 and step-3 records in order,
and the step-3 request referenced step 1's response id. -/
theorem claim_C1 :
    (∀ (env : GenEnv) (prompt : String) (ages : List Int) (base_age : Int)
        (s : ChainState) (i : Nat),
      stepFails env i (progressionRequest prompt ages i s.previous_response_id) →
      chainStep env prompt ages base_age s i =
        { s with requests := s.requests ++
            [progressionRequest prompt ages i s.previous_response_id] }) ∧
    ((generate_images_and_captions c1Env "a person" 3 none (some 20) (some 15)).1 =
      .ok
        [{ url := "/generated/step_0.png", caption := "Age 20",
           age := "20 Years Old", year := "2025",
           call_id := some "resp-1", base64_data := some "img-1" },
         { url := "/generated/step_2.png", caption := "Age 50",
           age := "50 Years Old", year := "2055",
           call_id := some "resp-3", base64_data := some "img-3" }] ∧
     (generate_images_and_captions c1Env "a person" 3 none (some 20) (some 15)).2.length = 3 ∧
     ((generate_images_and_captions c1Env "a person" 3 none (some 20) (some 15)).2.getD 2
        { input := "", previous_response_id := none }).previous_response_id =
       some "resp-1") :=
  ⟨chainStep_skip, by decide⟩

/-- Witness for claim C1: a concrete failing step (the second call of
`c1Env` raises) leaves the records and the anchor of a concrete mid-chain
state unchanged. -/
theorem claim_C1_witness :
    chainStep c1Env "a person" [20, 35, 50] 20 w1State 1 =
      { w1State with requests := w1State.requests ++
          [progressionRequest "a person" [20, 35, 50] 1 w1State.previous_response_id] } :=
  claim_C1.1 c1Env "a person" [20, 35, 50] 20 w1State 1 (Or.inl rfl)

/-! ## Claim C2: only the base step is fatal -/

/-- Claim C2: when the base call returns no image payload the operation
raises (returning no records), and whenever the base step fully succeeds
the operation never raises, returning between 1 and `num_images` records
regardless of how any later step fails. -/
theorem claim_C2 :
    (∀ (env : GenEnv) (prompt : String) (n : Nat) (ca : Option (List Int))
        (sa ga : Option Int) (id : String),
      plan_ages n ca sa ga ≠ [] →
      env.api 0 (baseRequest prompt ((plan_ages n ca sa ga).headD 0)) = .ok id [] →
      (generate_images_and_captions env prompt n ca sa ga).1 =
        .error "Failed to generate base image - no image data returned") ∧
    (∀ (env : GenEnv) (prompt : String) (n : Nat) (sa ga : Option Int)
        (id img : String) (rest : List String),
      1 ≤ n →
      env.api 0 (baseRequest prompt ((plan_ages n none sa ga).headD 0)) =
        .ok id (img :: rest) →
      env.save 0 img ≠ "" →
      ∃ l, (generate_images_and_captions env prompt n none sa ga).1 = .ok l ∧
        1 ≤ l.length ∧ l.length ≤ n) := by
  constructor
  · intro env prompt n ca sa ga id hne hapi
    simp only [generate_images_and_captions]
    cases hag : plan_ages n ca sa ga with
    | nil => exact absurd hag hne
    | cons b bs =>
      rw [hag] at hapi
      simp only [List.headD_cons] at hapi
      simp only [hapi]
  · intro env prompt n sa ga id img rest hn hapi hsave
    have hlen : (plan_ages n none sa ga).length = n := plan_ages_none_length n sa ga
    simp only [generate_images_and_captions]
    cases hag : plan_ages n none sa ga with
    | nil => rw [hag] at hlen; simp at hlen; omega
    | cons b bs =>
      rw [hag] at hapi
      simp only [List.headD_cons] at hapi
      simp only [hapi, hsave, if_neg hsave]
      refine ⟨_, rfl, ?_, ?_⟩
      · exact le_trans (by simp) (foldl_chain_records_ge env prompt (b :: bs) b _ _)
      · refine le_trans (foldl_chain_records_le env prompt (b :: bs) b _ _) ?_
        rw [hag] at hlen
        simp only [List.length_cons, List.length_range', List.length_nil] at hlen ⊢
        omega

/-- Witness for claim C2: with a concrete imageless base response the run
raises, and with a concrete environment whose base succeeds and whose
every later call raises, the run returns a list of length between 1
and 3. -/
theorem claim_C2_witness :
    ((generate_images_and_captions c2aEnv "a person" 3 none (some 20) (some 15)).1 =
      .error "Failed to generate base image - no image data returned") ∧
    (∃ l, (generate_images_and_captions c2bEnv "a person" 3 none (some 20) (some 15)).1 =
      .ok l ∧ 1 ≤ l.length ∧ l.length ≤ 3) :=
  ⟨claim_C2.1 c2aEnv "a person" 3 none (some 20) (some 15) "base-id"
     (by decide) (by decide),
   claim_C2.2 c2bEnv "a person" 3 (some 20) (some 15) "base-id" "img-base" []
     (by decide) (by decide) (by decide)⟩

/-! ## Claim C10: the synthetic year label is determined by the age -/

/-- Claim C10: in every successful run the first record's year label is
`2025`, and each later record's year label is the string of
`2025 + (current_age - base_age)` for its planned age, `base_age` being
the first planned age. -/
theorem claim_C10 :
    ∀ (env : GenEnv) (prompt : String) (n : Nat) (ca : Option (List Int))
      (sa ga : Option Int) (l : List GeneratedImage),
      (generate_images_and_captions env prompt n ca sa ga).1 = .ok l →
      ∃ base t, l = base :: t ∧ base.year = "2025" ∧
        ∀ r ∈ t, yearProp (plan_ages n ca sa ga)
          ((plan_ages n ca sa ga).headD 0) r := by
  intro env prompt n ca sa ga l h
  simp only [generate_images_and_captions] at h
  cases hag : plan_ages n ca sa ga with
  | nil => rw [hag] at h; simp at h
  | cons b bs =>
    rw [hag] at h
    dsimp only at h
    cases hapi : env.api 0 (baseRequest prompt b) with
    | error => rw [hapi] at h; simp at h
    | ok id imgs =>
      rw [hapi] at h
      dsimp only at h
      cases imgs with
      | nil => simp at h
      | cons img more =>
        dsimp only at h
        by_cases hsv : env.save 0 img = ""
        · rw [if_pos hsv] at h; simp at h
        · rw [if_neg hsv] at h
          dsimp only at h
          obtain ⟨t2, hrec, hyear⟩ :=
            foldl_chain_year env prompt (b :: bs) b
              (List.range' 1 ((b :: bs).length - 1))
              ⟨[⟨env.save 0 img, "Age " ++ toString b,
                 toString b ++ " Years Old", toString (2025 : Int),
                 some id, some img⟩], id, [baseRequest prompt b]⟩
              _ []
              (by
                intro i hi
                rw [List.mem_range'_1] at hi
                simp only [List.length_cons] at hi ⊢
                omega)
              rfl
              (by intro r hr; cases hr)
          refine ⟨⟨env.save 0 img, "Age " ++ toString b,
            toString b ++ " Years Old", toString (2025 : Int),
            some id, some img⟩, t2, ?_, ?_, ?_⟩
          · rw [← hrec]
            exact (Except.ok.inj h).symm
          · show toString (2025 : Int) = "2025"
            decide
          · intro r hr
            simpa using hyear r hr

/-- Witness for claim C10: in a concrete successful 3-age run (ages
20, 35, 50; third step fails) the base record's year is `2025` and each
later record's year is `2025` plus its age distance from the base age. -/
theorem claim_C10_witness :
    ∃ base t,
      [{ url := "/generated/run_0.png", caption := "Age 20",
         age := "20 Years Old", year := "2025",
         call_id := some "resp-a", base64_data := some "img-a" },
       { url := "/generated/run_1.png", caption := "Age 35",
         age := "35 Years Old", year := "2040",
         call_id := some "resp-b", base64_data := some "img-b" }] = base :: t ∧
      base.year = "2025" ∧
      ∀ r ∈ t, yearProp (plan_ages 3 none (some 20) (some 15))
        ((plan_ages 3 none (some 20) (some 15)).headD 0) r :=
  claim_C10 c10Env "a person" 3 none (some 20) (some 15) _ (by decide)

/-! ## Decimal-rendering lemmas for claim C4

`regenerate_single_image` distinguishes its output files only through
`str(int(time.time()))` inside the filename, so the collision behaviour
of two calls reduces to injectivity of the decimal rendering of the
timestamp. -/

/-- Unfolding of `natChars` below 10. -/
theorem natChars_lt (n : Nat) (h : n < 10) : natChars n = [Nat.digitChar n] := by
  rw [natChars, if_pos h]

/-- Unfolding of `natChars` from 10 on. -/
theorem natChars_ge (n : Nat) (h : ¬ n < 10) :
    natChars n = natChars (n / 10) ++ [Nat.digitChar (n % 10)] := by
  rw [natChars]
  rw [if_neg h]

/-- A decimal rendering is never empty. -/
theorem natChars_ne_nil (n : Nat) : natChars n ≠ [] := by
  by_cases h : n < 10
  · rw [natChars_lt n h]; simp
  · rw [natChars_ge n h]; simp

/-- The decimal digit characters are pairwise distinct. -/
theorem digitChar_inj_lt (a b : Nat) (ha : a < 10) (hb : b < 10)
    (h : Nat.digitChar a = Nat.digitChar b) : a = b := by
  have key : ∀ x y : Fin 10, Nat.digitChar x.val = Nat.digitChar y.val → x = y := by
    decide
  exact congrArg Fin.val (key ⟨a, ha⟩ ⟨b, hb⟩ h)

/-- The decimal rendering of a natural number determines the number. -/
theorem natChars_inj : ∀ (m n : Nat), natChars m = natChars n → m = n := by
  intro m
  induction m using Nat.strong_induction_on with
  | _ m ih =>
    intro n h
    by_cases hm : m < 10 <;> by_cases hn : n < 10
    · rw [natChars_lt m hm, natChars_lt n hn] at h
      exact digitChar_inj_lt m n hm hn (List.cons.inj h).1
    · rw [natChars_lt m hm, natChars_ge n hn] at h
      have hlen := congrArg List.length h
      simp only [List.length_append, List.length_cons, List.length_nil] at hlen
      have hz : natChars (n / 10) = [] := List.length_eq_zero.mp (by omega)
      exact absurd hz (natChars_ne_nil _)
    · rw [natChars_ge m hm, natChars_lt n hn] at h
      have hlen := congrArg List.length h
      simp only [List.length_append, List.length_cons, List.length_nil] at hlen
      have hz : natChars (m / 10) = [] := List.length_eq_zero.mp (by omega)
      exact absurd hz (natChars_ne_nil _)
    · rw [natChars_ge m hm, natChars_ge n hn] at h
      obtain ⟨h1, h2⟩ := List.append_inj' h (by simp)
      have hd : m / 10 = n / 10 :=
        ih (m / 10) (Nat.div_lt_self (by omega) (by omega)) _ h1
      have hm10 : m % 10 = n % 10 :=
        digitChar_inj_lt _ _ (Nat.mod_lt _ (by omega)) (Nat.mod_lt _ (by omega))
          (List.cons.inj h2).1
      omega

/-- With sufficient fuel, the core digit loop of `Nat.repr` produces
exactly the decimal rendering, prepended to its accumulator. -/
theorem toDigitsCore_eq_natChars :
    ∀ (n fuel : Nat) (l : List Char), n < fuel →
      Nat.toDigitsCore 10 fuel n l = natChars n ++ l := by
  intro n
  induction n using Nat.strong_induction_on with
  | _ n ih =>
    intro fuel l hf
    cases fuel with
    | zero => omega
    | succ f =>
      simp only [Nat.toDigitsCore]
      by_cases h10 : n / 10 = 0
      · rw [if_pos h10]
        have hn : n < 10 := by omega
        rw [natChars_lt n hn, Nat.mod_eq_of_lt hn]
        rfl
      · rw [if_neg h10]
        have hrec := ih (n / 10) (Nat.div_lt_self (by omega) (by omega)) f
          (Nat.digitChar (n % 10) :: l) (by omega)
        rw [hrec, natChars_ge n (by omega)]
        simp

/-- Core `Nat.repr` renders exactly the decimal digit characters. -/
theorem nat_repr_eq_natChars (n : Nat) : Nat.repr n = (natChars n).asString := by
  unfold Nat.repr Nat.toDigits
  rw [toDigitsCore_eq_natChars n (n + 1) [] (by omega)]
  simp

/-- The decimal string of a natural number determines the number. -/
theorem nat_repr_inj (m n : Nat) (h : Nat.repr m = Nat.repr n) : m = n := by
  rw [nat_repr_eq_natChars, nat_repr_eq_natChars] at h
  apply natChars_inj
  have hd := congrArg String.data h
  simpa [List.asString] using hd

/-- A regenerated image's storage reference is never the empty string. -/
theorem regen_url_ne_empty (age : Int) (t : Nat) : regen_url age t ≠ "" := by
  intro h
  unfold regen_url at h
  have hd := congrArg String.data h
  simp only [String.data_append, List.append_eq_nil] at hd
  exact absurd hd.1 (by decide)

/-- A successful `regenerate_single_image` call's storage reference embeds
its age and its observed integer-second timestamp. -/
theorem regen_url_of_some (env : RegenEnv) (prompt : String) (age : Int)
    (anchor : Option String) (r : GeneratedImage)
    (h : regenerate_single_image env prompt age anchor = some r) :
    r.url = regen_url age env.timestamp := by
  simp only [regenerate_single_image] at h
  split at h
  · exact Option.noConfusion h
  · split at h
    · exact Option.noConfusion h
    · cases hsk : env.saveOk
      · rw [hsk] at h
        simp at h
      · rw [hsk] at h
        simp only [if_true] at h
        rw [if_neg (regen_url_ne_empty age env.timestamp)] at h
        exact (congrArg GeneratedImage.url (Option.some.inj h)).symm

/-- Two storage references for the same age coincide exactly when the two
observed timestamps coincide. -/
theorem regen_url_timestamp_inj (age : Int) (t1 t2 : Nat)
    (h : regen_url age t1 = regen_url age t2) : t1 = t2 := by
  apply nat_repr_inj
  have hd := congrArg String.data h
  simp only [regen_url, String.data_append, List.append_assoc,
    List.append_cancel_left_eq, List.append_cancel_right_eq] at hd
  exact String.ext hd

/-! ## Claim C4: regeneration never overwrites a prior result -/

/-- Claim C4 as stated is false on the code: two `regenerate_single_image`
calls with identical inputs landing in the same integer second (here both
observe `int(time.time()) = 1757000000`) produce the same storage
reference, so the second disk write overwrites the first. -/
theorem claim_C4_counterexample :
    Option.map GeneratedImage.url
      (regenerate_single_image c4EnvA "a person" 30 none) =
      some "/generated/regen_age_30_1757000000.png" ∧
    Option.map GeneratedImage.url
      (regenerate_single_image c4EnvB "a person" 30 none) =
      some "/generated/regen_age_30_1757000000.png" := by
  decide

/-- Claim C4, amended: two successful `regenerate_single_image` calls with
identical inputs produce distinct, non-colliding storage references
provided they observe distinct integer-second timestamps; with equal
timestamps the references collide and the later write overwrites the
earlier file. -/
theorem claim_C4_amended :
    ∀ (env1 env2 : RegenEnv) (prompt : String) (age : Int)
      (anchor : Option String) (r1 r2 : GeneratedImage),
      regenerate_single_image env1 prompt age anchor = some r1 →
      regenerate_single_image env2 prompt age anchor = some r2 →
      env1.timestamp ≠ env2.timestamp →
      r1.url ≠ r2.url := by
  intro env1 env2 prompt age anchor r1 r2 h1 h2 hts hurl
  rw [regen_url_of_some env1 prompt age anchor r1 h1,
    regen_url_of_some env2 prompt age anchor r2 h2] at hurl
  exact hts (regen_url_timestamp_inj age _ _ hurl)

/-- Witness for claim C4: two concrete successful calls one second apart
produce distinct storage references. -/
theorem claim_C4_witness : w4RecA.url ≠ w4RecB.url :=
  claim_C4_amended c4EnvA w4Env "a person" 30 none w4RecA w4RecB
    (by decide) (by decide) (by decide)

end AgingVideo
